import Mathlib

/-!
Verification development for the finance-tracker backend.

The definitions below are a shallow embedding of the Python sources under
`src/backend`: the portfolio-update and transaction-dispatch logic of
`main.py` and `logic/gsheets_handler.py`, the response-normalisation logic of
`logic/ai_processor.py`, and the rate-caching logic of
`logic/exchange_rate.py`.  Python floats are modelled as exact rationals (ℚ);
fallible paths (where the Python code would raise) return `Option`.
-/

/-- Row of the Investments tab as read by `gsheets_handler.get_investments`
(gsheets_handler.py lines 140-158): the handler builds one dict per row with
exactly the keys purchase_date, account, symbol, shares, avg_price,
total_value_usd, total_value_idr and realized_pl.  The `Total Value (USD)`
cell is left empty for IDR positions; `none` models an empty (Python-falsy)
cell. -/
structure Investment where
  purchase_date : String
  account : String
  symbol : String
  shares : ℚ
  avg_price : ℚ
  total_value_usd : Option ℚ
  total_value_idr : ℚ
  realized_pl : ℚ
deriving Repr, DecidableEq

/-- Python truthiness of a numeric spreadsheet cell: an empty cell or the
number 0 is falsy. -/
def cellTruthy : Option ℚ → Bool
  | none => false
  | some q => decide (q ≠ 0)

/-- main.py line 286 evaluates `inv.get('currency', 'IDR')` on a dict built by
`get_investments`.  That dict has no key named currency (see the `Investment`
row model above, which lists the keys the handler produces), so the lookup
always returns the default string IDR for an existing position. -/
def invGetCurrency (_i : Investment) : String := "IDR"

/-- Symbol comparison used by both `update_investment` (gsheets_handler.py
line 194) and the Trade_Sell lookup (main.py line 283): Python compares the
row's Symbol string against a value that may be Python None, and a string
never equals None. -/
def symMatches (sym : Option String) (i : Investment) : Bool :=
  match sym with
  | some s => i.symbol == s
  | none => false

/-- main.py line 283: first portfolio row whose symbol equals the
transaction's investment_symbol. -/
def findInvestment (rows : List Investment) (sym : Option String) : Option Investment :=
  rows.find? (symMatches sym)

/-- Found-row branch of `gsheets_handler.update_investment` (gsheets_handler.py
lines 193-231): the new values written back to columns D..H of the first row
whose Symbol matches. -/
def update_investment_row (row : Investment)
    (shares_change price realized_pl exchange_rate : ℚ) : Investment :=
  let current_shares := row.shares
  let current_avg := row.avg_price
  let new_shares := current_shares + shares_change
  let new_avg :=
    if shares_change > 0 then
      if new_shares > 0 then
        (current_shares * current_avg + shares_change * price) / new_shares
      else
        price
    else
      current_avg
  let new_pl := row.realized_pl + realized_pl
  let existing_currency := if cellTruthy row.total_value_usd then "USD" else "IDR"
  let total_value_native := new_shares * price
  { row with
    shares := new_shares
    avg_price := new_avg
    total_value_usd := if existing_currency == "USD" then some total_value_native else none
    total_value_idr :=
      if existing_currency == "USD" then total_value_native * exchange_rate
      else total_value_native
    realized_pl := new_pl }

/-- New-row branch of `gsheets_handler.update_investment` (gsheets_handler.py
lines 233-257).  The Python code replaces an empty purchase_date with today's
date; the date never influences the claims below, so it is stored as given.
A Python None symbol would be serialised by the sheet client; it is stored
here as the empty string. -/
def new_investment_row (symbol : Option String) (shares_change price : ℚ)
    (account purchase_date currency : String) (exchange_rate : ℚ) : Investment :=
  let total_value_native := shares_change * price
  { purchase_date := purchase_date
    account := account
    symbol := symbol.getD ""
    shares := shares_change
    avg_price := price
    total_value_usd := if currency == "USD" then some total_value_native else none
    total_value_idr :=
      if currency == "USD" then total_value_native * exchange_rate else total_value_native
    realized_pl := 0 }

/-- `gsheets_handler.update_investment` (lines 188-257) over the full list of
rows: the first row whose Symbol matches is rewritten in place and the loop
breaks; if no row matches and shares_change is positive a new row is appended
at the end. -/
def update_investment (rows : List Investment) (symbol : Option String)
    (shares_change price realized_pl : ℚ) (account purchase_date currency : String)
    (exchange_rate : ℚ) : List Investment :=
  match rows with
  | [] =>
    if shares_change > 0 then
      [new_investment_row symbol shares_change price account purchase_date currency exchange_rate]
    else
      []
  | r :: rest =>
    if symMatches symbol r then
      update_investment_row r shares_change price realized_pl exchange_rate :: rest
    else
      r :: update_investment rest symbol shares_change price realized_pl account purchase_date
        currency exchange_rate

/-- `ai_processor.TransactionData` (ai_processor.py lines 20-41), with the
same field defaults as the dataclass.  Numeric fields are exact rationals. -/
structure TransactionData where
  amount : ℚ
  category : String
  subcategory : String
  account : String
  note : String
  transaction_type : String
  is_flagged : Bool
  flag_reason : Option String := none
  confidence : ℚ := 1
  investment_symbol : Option String := none
  shares : Option ℚ := none
  price_per_share : Option ℚ := none
  destination_account : Option String := none
  currency : String := "IDR"
  source_account : Option String := none
deriving Repr, DecidableEq

/-- Argument record of `gsheets_handler.append_transaction` (lines 259-288):
one appended row of the Transactions tab. -/
structure LedgerEntry where
  date : String
  account : String
  category : String
  subcategory : String
  note : String
  amount : ℚ
  transaction_type : String
  status : String
deriving Repr, DecidableEq

/-- main.py line 230. -/
def pyStatus (td : TransactionData) : String :=
  if td.is_flagged then "Flagged" else "Normal"

/-- `exchange_rate.convert_usd_to_idr` (exchange_rate.py lines 98-109). -/
def convert_usd_to_idr (usd_amount rate : ℚ) : ℚ := usd_amount * rate

/-- Python f-string rendering of an optional string (None prints as None). -/
def fstr : Option String → String
  | some s => s
  | none => "None"

/-- Trade_Buy shares/price reconciliation (main.py lines 240-257), in the
source's branch order: derive the missing one of shares/price from the total
amount, or fall back to shares=1, price=amount when both are missing. -/
def derive_buy_shares_price (total_cost : ℚ) (shares price : Option ℚ) :
    Option ℚ × Option ℚ :=
  match shares, price with
  | none, some p => if p > 0 then (some (total_cost / p), some p) else (none, some p)
  | none, none => (some 1, some total_cost)
  | some s, none => if s > 0 then (some s, some (total_cost / s)) else (some s, none)
  | some s, some p => (some s, some p)

/-- Trade_Sell branch of `main.process_transaction` (main.py lines 232-237 and
280-340) as a function of the portfolio read from the sheet, the transaction
record, the USD rate the orchestrator would have fetched, and the current
date.  Returns the two appended ledger entries (in append order) and the
updated portfolio.  Where the Python code would raise a TypeError because a
still-missing shares or price value reaches arithmetic, the model returns
`none` (no claim below depends on that corner). -/
def process_trade_sell (portfolio : List Investment) (td : TransactionData)
    (usdRate : ℚ) (current_date : String) :
    Option (List LedgerEntry × List Investment) :=
  let exchange_rate : ℚ := if td.currency == "USD" then usdRate else 1
  let status := pyStatus td
  let inv := findInvestment portfolio td.investment_symbol
  let inv_currency :=
    match inv with
    | some i => invGetCurrency i
    | none => td.currency
  let total_amount := td.amount
  let sp : Option ℚ × Option ℚ :=
    match td.shares, td.price_per_share with
    | none, some p => if p > 0 then (some (total_amount / p), some p) else (none, some p)
    | some s, none => if s > 0 then (some s, some (total_amount / s)) else (some s, none)
    | none, none =>
      match inv with
      | some i =>
        if i.avg_price ≠ 0 then (some (total_amount / i.avg_price), some i.avg_price)
        else (some 1, some total_amount)
      | none => (some 1, some total_amount)
    | some s, some p => (some s, some p)
  match sp with
  | (some shares, some price) =>
    let avg_buy_price :=
      match inv with
      | some i => i.avg_price
      | none => price
    let base_cost := shares * avg_buy_price
    let capital_gain := total_amount - base_cost
    let sell_exchange_rate := if inv_currency == "USD" then exchange_rate else 1
    let base_cost_idr :=
      if inv_currency == "USD" then convert_usd_to_idr base_cost sell_exchange_rate
      else base_cost
    let capital_gain_idr :=
      if inv_currency == "USD" then convert_usd_to_idr capital_gain sell_exchange_rate
      else capital_gain
    some (
      [ { date := current_date, account := td.account, category := td.category,
          subcategory := td.subcategory,
          note := "Sell " ++ fstr td.investment_symbol ++ " (Return of Capital) ("
            ++ inv_currency ++ ")",
          amount := base_cost_idr, transaction_type := "Asset", status := status },
        { date := current_date, account := td.account, category := "Income",
          subcategory := "Capital Gains",
          note := "Sell " ++ fstr td.investment_symbol ++ " (Gain) (" ++ inv_currency ++ ")",
          amount := capital_gain_idr, transaction_type := "Income", status := status } ],
      update_investment portfolio td.investment_symbol (-shares) price capital_gain "" ""
        inv_currency sell_exchange_rate)
  | _ => none

/-- Transfer branch of `main.process_transaction` (main.py lines 342-368):
the destination falls back to the string Unknown when destination_account is
Python-falsy (None or the empty string), and both entries are appended
unconditionally — there is no validation or rejection on this path. -/
def process_transfer (td : TransactionData) (current_date : String) : List LedgerEntry :=
  let destination :=
    match td.destination_account with
    | none => "Unknown"
    | some d => if d == "" then "Unknown" else d
  [ { date := current_date, account := td.account, category := td.category,
      subcategory := td.subcategory, note := "Transfer to " ++ destination,
      amount := td.amount, transaction_type := "Transfer", status := pyStatus td },
    { date := current_date, account := destination, category := td.category,
      subcategory := td.subcategory, note := "Transfer from " ++ td.account,
      amount := td.amount, transaction_type := "Transfer", status := pyStatus td } ]

/-- Module state of `exchange_rate.py` (lines 14-17): the cached rate and its
fetch timestamp (modelled in seconds). -/
structure RateCache where
  cached_rate : Option ℚ
  cache_timestamp : Option ℚ
deriving Repr, DecidableEq

/-- exchange_rate.py line 17: one hour, in seconds. -/
def CACHE_DURATION : ℚ := 3600

/-- exchange_rate.py line 20; `set_fallback_rate` (lines 117-123) rebinds this
module-level constant, which is modelled by the explicit `fallback` argument
of `get_usd_to_idr_rate`. -/
def FALLBACK_RATE : ℚ := 16000

/-- `exchange_rate.get_usd_to_idr_rate` (exchange_rate.py lines 23-54).
`fetchResult` models the value produced by `_fetch_exchange_rate`: `none`
when both providers fail or the fetch raises (the call site catches every
exception), `some r` when a provider returned r — the code then treats a
Python-falsy r (0.0) like a failure.  The function is total: every failure
path degrades to a returned value. -/
def get_usd_to_idr_rate (st : RateCache) (now : ℚ) (fetchResult : Option ℚ)
    (fallback : ℚ) : ℚ × RateCache :=
  let stale : ℚ × RateCache :=
    match st.cached_rate with
    | some r => (r, st)
    | none => (fallback, st)
  let tryFetch : ℚ × RateCache :=
    match fetchResult with
    | some rate => if rate ≠ 0 then (rate, ⟨some rate, some now⟩) else stale
    | none => stale
  match st.cached_rate, st.cache_timestamp with
  | some r, some ts => if now - ts < CACHE_DURATION then (r, st) else tryFetch
  | _, _ => tryFetch

/-- Scalar JSON values.  The fields of the transaction JSON produced and
consumed by `ai_processor.py` are all scalars; `json.loads` maps null to
Python None, true/false to bool, numbers to int/float and strings to str. -/
inductive Json where
  | null : Json
  | bool : Bool → Json
  | num : ℚ → Json
  | str : String → Json
deriving Repr, DecidableEq

/-- A parsed JSON object: association list of keys to scalar values (Python
dicts have unique keys after json.loads). -/
abbrev JsonObj := List (String × Json)

/-- Raw dictionary lookup: `some v` when the key is present with value v
(possibly `Json.null`), `none` when the key is absent. -/
def jget (data : JsonObj) (k : String) : Option Json :=
  (data.find? (fun kv => kv.1 == k)).map (fun kv => kv.2)

/-- Python `data.get(k)` with no default: a JSON null value and an absent key
both come back as Python None. -/
def pyGetOpt (data : JsonObj) (k : String) : Option Json :=
  match jget data k with
  | some Json.null => none
  | some v => some v
  | none => none

/-- List of decimal digits, nonempty. -/
def isDigitStr (s : String) : Bool :=
  decide (s.toList ≠ []) && s.toList.all Char.isDigit

/-- Numeric value of a list of decimal digits. -/
def natOfDigits (l : List Char) : Nat :=
  l.foldl (fun n c => 10 * n + (c.toNat - 48)) 0

/-- Python `int(s)`-style signed integer literal used for float exponents. -/
def parseIntStr (s : String) : Option Int :=
  let (sign, ds) :=
    if String.startsWith s "-" then ((-1 : Int), String.drop s 1)
    else if String.startsWith s "+" then ((1 : Int), String.drop s 1)
    else ((1 : Int), s)
  if isDigitStr ds then some (sign * (natOfDigits ds.toList : Int)) else none

/-- Mantissa of a float literal: digits with an optional decimal point; at
least one digit overall (Python accepts "1.", ".5", rejects "." and ""). -/
def parseMantissa (m : String) : Option ℚ :=
  match m.splitOn "." with
  | [ip] => if isDigitStr ip then some ((natOfDigits ip.toList : ℚ)) else none
  | [ip, fp] =>
    if ip.toList.all Char.isDigit && fp.toList.all Char.isDigit
        && (decide (ip.toList ≠ []) || decide (fp.toList ≠ [])) then
      some ((natOfDigits (ip.toList ++ fp.toList) : ℚ) / (10 : ℚ) ^ fp.toList.length)
    else none
  | _ => none

/-- Split a float literal into mantissa and optional exponent part at a
single e or E. -/
def splitExp (body : String) : Option (String × Option String) :=
  match body.splitOn "e" with
  | [m] =>
    match m.splitOn "E" with
    | [m2] => some (m2, none)
    | [m2, ex] => some (m2, some ex)
    | _ => none
  | [m, ex] => some (m, some ex)
  | _ => none

/-- Python `float(s)` on ordinary decimal literals (optional sign, optional
fraction, optional exponent, surrounding whitespace); `none` models a raised
ValueError.  Special spellings (inf, nan, underscores) are not produced by
any input considered here. -/
def pyFloatStr (s : String) : Option ℚ :=
  let t := s.trim
  let (sign, body) :=
    if String.startsWith t "-" then ((-1 : ℚ), String.drop t 1)
    else if String.startsWith t "+" then ((1 : ℚ), String.drop t 1)
    else ((1 : ℚ), t)
  match splitExp body with
  | none => none
  | some (m, exOpt) =>
    match parseMantissa m with
    | none => none
    | some q =>
      match exOpt with
      | none => some (sign * q)
      | some ex =>
        match parseIntStr ex with
        | some e2 => some (sign * q * (10 : ℚ) ^ (e2 : ℤ))
        | none => none

/-- `AIProcessor._parse_float` (ai_processor.py lines 156-171).  The argument
is the result of `data.get(key)`, so `none` stands for Python None (absent
key or JSON null).  Python bools are instances of int, so true/false pass the
isinstance check as 1/0.  String values are lowercased, stripped of commas,
dollar signs and the token rp, trimmed, then interpreted with the k (×1000)
and jt (×1000000) suffix rules; an inner ValueError yields None. -/
def parse_float : Option Json → Option ℚ
  | none => none
  | some Json.null => none
  | some (Json.bool b) => some (if b then 1 else 0)
  | some (Json.num q) => some q
  | some (Json.str v) =>
    let s := ((((String.toLower v).replace "," "").replace "$" "").replace "rp" "").trim
    if String.contains s 'k' then
      (pyFloatStr (s.replace "k" "")).map (fun q => q * 1000)
    else if (s.splitOn "jt").length > 1 then
      (pyFloatStr (s.replace "jt" "")).map (fun q => q * 1000000)
    else
      pyFloatStr s

/-- ai_processor.py line 285: `self._parse_float(data.get('amount')) or 0.0` —
Python `or` replaces a falsy left operand (None or 0.0) with 0.0. -/
def pyOrZero : Option ℚ → ℚ
  | none => 0
  | some q => if q = 0 then 0 else q

/-- String field with a default (ai_processor.py lines 291-295, 303): Python
`data.get(k, d)` returns the default only when the key is absent.  Values of
a JSON type other than string in these string-annotated fields never arise
from the prompt contract of this repository and are outside the embedding;
they are mapped to an error. -/
def getStrD (data : JsonObj) (k d : String) : Except String String :=
  match jget data k with
  | none => Except.ok d
  | some (Json.str s) => Except.ok s
  | some _ => Except.error ("non-string value for key " ++ k)

/-- Optional string field (flag_reason, investment_symbol,
destination_account, source_account): absent key and JSON null both give
Python None. -/
def getOptStr (data : JsonObj) (k : String) : Except String (Option String) :=
  match jget data k with
  | none => Except.ok none
  | some Json.null => Except.ok none
  | some (Json.str s) => Except.ok (some s)
  | some _ => Except.error ("non-string value for key " ++ k)

/-- `data.get('is_flagged', False)` (ai_processor.py line 296): absent key
defaults to false; a JSON bool passes through; other JSON types are outside
the embedding. -/
def getBoolD (data : JsonObj) (k : String) : Except String Bool :=
  match jget data k with
  | none => Except.ok false
  | some (Json.bool b) => Except.ok b
  | some _ => Except.error ("non-bool value for key " ++ k)

/-- Python `float(v)` on a JSON scalar: numbers and bools convert, numeric
strings parse, None raises TypeError. -/
def pyFloatOf : Json → Except String ℚ
  | Json.num q => Except.ok q
  | Json.bool b => Except.ok (if b then 1 else 0)
  | Json.str s =>
    match pyFloatStr s with
    | some q => Except.ok q
    | none => Except.error "ValueError: could not convert string to float"
  | Json.null => Except.error "TypeError: float() argument must be a string or a real number, not NoneType"

/-- `float(data.get('confidence', 0.5))` (ai_processor.py line 298). -/
def getConfidence (data : JsonObj) : Except String ℚ :=
  match jget data "confidence" with
  | none => Except.ok (1 / 2)
  | some v => pyFloatOf v

/-- Success branch of `AIProcessor.process_transaction` (ai_processor.py
lines 283-305): field extraction, coercion and defaulting from the parsed
JSON object into a TransactionData.  An error models a raised exception
(caught by the surrounding except). -/
def decodeObj (data : JsonObj) : Except String TransactionData := do
  let amount := pyOrZero (parse_float (pyGetOpt data "amount"))
  let shares := parse_float (pyGetOpt data "shares")
  let price := parse_float (pyGetOpt data "price_per_share")
  let category ← getStrD data "category" "Miscellaneous"
  let subcategory ← getStrD data "subcategory" "Other"
  let account ← getStrD data "account" "Wallet"
  let note ← getStrD data "note" ""
  let ttype ← getStrD data "transaction_type" "Expense"
  let flagged ← getBoolD data "is_flagged"
  let freason ← getOptStr data "flag_reason"
  let conf ← getConfidence data
  let isym ← getOptStr data "investment_symbol"
  let dest ← getOptStr data "destination_account"
  let curr ← getStrD data "currency" "IDR"
  let src ← getOptStr data "source_account"
  Except.ok
    { amount := amount
      category := category
      subcategory := subcategory
      account := account
      note := note
      transaction_type := ttype
      is_flagged := flagged
      flag_reason := freason
      confidence := conf
      investment_symbol := isym
      shares := shares
      price_per_share := price
      destination_account := dest
      currency := curr
      source_account := src }

/-- Fallback record returned by the except branch of
`AIProcessor.process_transaction` (ai_processor.py lines 307-319); the
remaining fields take the dataclass defaults. -/
def fallbackRecord (e : String) : TransactionData :=
  { amount := 0
    category := "Miscellaneous"
    subcategory := "Other"
    account := "Wallet"
    note := "Failed to parse extraction"
    transaction_type := "Expense"
    is_flagged := true
    flag_reason := some ("AI response parsing error: " ++ e)
    confidence := 0
    investment_symbol := none
    shares := none
    price_per_share := none
    destination_account := none
    currency := "IDR"
    source_account := none }

/-- Parse stage of `AIProcessor.process_transaction` (ai_processor.py lines
267-319).  The argument is the outcome of JSON extraction and parsing of the
raw response text: `Except.error e` models a raised extraction/parse
exception with message e; `Except.ok data` carries the parsed object, whose
field coercion may itself raise (modelled inside `decodeObj`).  Every raised
exception is caught and mapped to the fallback record, so this stage is a
total function into TransactionData — it never propagates an exception. -/
def processParsedResponse (parsed : Except String JsonObj) : TransactionData :=
  match parsed with
  | Except.error e => fallbackRecord e
  | Except.ok data =>
    match decodeObj data with
    | Except.ok td => td
    | Except.error e => fallbackRecord e

/-- JSON value of an optional string field. -/
def optStrJson : Option String → Json
  | none => Json.null
  | some s => Json.str s

/-- JSON value of an optional numeric field. -/
def optNumJson : Option ℚ → Json
  | none => Json.null
  | some q => Json.num q

/-- JSON serialisation of a TransactionData, at the JSON-value level: the
object `json.dumps(dataclasses.asdict(td))` would produce, with the fields in
dataclass declaration order.  The textual dump/parse round trip is the
identity on these scalar values, so serialisation is modelled directly as a
JsonObj. -/
def serializeRecord (td : TransactionData) : JsonObj :=
  [ ("amount", Json.num td.amount),
    ("category", Json.str td.category),
    ("subcategory", Json.str td.subcategory),
    ("account", Json.str td.account),
    ("note", Json.str td.note),
    ("transaction_type", Json.str td.transaction_type),
    ("is_flagged", Json.bool td.is_flagged),
    ("flag_reason", optStrJson td.flag_reason),
    ("confidence", Json.num td.confidence),
    ("investment_symbol", optStrJson td.investment_symbol),
    ("shares", optNumJson td.shares),
    ("price_per_share", optNumJson td.price_per_share),
    ("destination_account", optStrJson td.destination_account),
    ("currency", Json.str td.currency),
    ("source_account", optStrJson td.source_account) ]

/-- Position used as a concrete second-buy example: 100 shares at average
9000. -/
def posBuyExample : Investment :=
  ⟨"2024-01-01", "RDN", "BBCA", 100, 9000, none, 900000, 0⟩

/-- Position holding 10 shares, for the oversell counterexample. -/
def posTenShares : Investment :=
  ⟨"2024-01-01", "RDN", "TLKM", 10, 100, none, 1000, 0⟩

/-- Position holding 100 shares at average 400 with realized P/L 7, for the
sell-preserves-average witness. -/
def posHold100 : Investment :=
  ⟨"2024-01-01", "RDN", "ARTO", 100, 400, none, 40000, 7⟩

/-- Position from the spec's capital-gain example: average cost 400. -/
def posArci : Investment :=
  ⟨"2024-01-01", "RDN", "ARCI", 2000, 400, none, 800000, 0⟩

/-- Sale of 1000 ARCI at 450 (amount 450000), the spec's example. -/
def tdSellArci : TransactionData :=
  { amount := 450000
    category := "Investment"
    subcategory := "Stocks"
    account := "RDN"
    note := "Sell 1000 ARCI"
    transaction_type := "Trade_Sell"
    is_flagged := false
    investment_symbol := some "ARCI"
    shares := some 1000
    price_per_share := some 450 }

/-- Existing USD position (its Total Value (USD) cell is populated, which is
how the rest of the code base recognises a USD position). -/
def posAaplUsd : Investment :=
  ⟨"2024-01-01", "Gotrade", "AAPL", 10, 100, some 1000, 16000000, 0⟩

/-- Sale of 5 AAPL at 120 USD (amount 600 USD) against the USD position. -/
def tdSellAapl : TransactionData :=
  { amount := 600
    category := "Investment"
    subcategory := "Stocks"
    account := "Gotrade"
    note := "Sell 5 AAPL"
    transaction_type := "Trade_Sell"
    is_flagged := false
    investment_symbol := some "AAPL"
    shares := some 5
    price_per_share := some 120
    currency := "USD" }

/-- Transfer request whose destination account is missing. -/
def tdTransferNoDest : TransactionData :=
  { amount := 500000
    category := "Transfer"
    subcategory := "Internal Transfer"
    account := "BCA"
    note := "transfer 500k"
    transaction_type := "Transfer"
    is_flagged := false }

/-- Rewriting a row in place never changes its Symbol column. -/
lemma symMatches_update_investment_row (sym : Option String) (r : Investment)
    (c pr rpl rate : ℚ) :
    symMatches sym (update_investment_row r c pr rpl rate) = symMatches sym r := by
  cases sym <;> rfl

/-- If a first matching row exists, `update_investment` rewrites exactly that
row, and looking the symbol up afterwards finds the rewritten row. -/
lemma find_update_investment (rows : List Investment) (sym : Option String)
    (c pr rpl : ℚ) (acc dt cur : String) (rate : ℚ) (p : Investment)
    (h : findInvestment rows sym = some p) :
    findInvestment (update_investment rows sym c pr rpl acc dt cur rate) sym
      = some (update_investment_row p c pr rpl rate) := by
  induction rows with
  | nil => simp [findInvestment] at h
  | cons r rest ih =>
    by_cases hr : symMatches sym r = true
    · rw [findInvestment, List.find?_cons_of_pos _ hr] at h
      injection h with h
      subst h
      have hr2 : symMatches sym (update_investment_row r c pr rpl rate) = true := by
        rw [symMatches_update_investment_row]
        exact hr
      rw [findInvestment]
      simp only [update_investment]
      rw [if_pos hr, List.find?_cons_of_pos _ hr2]
    · rw [findInvestment, List.find?_cons_of_neg _ hr] at h
      rw [findInvestment]
      simp only [update_investment]
      rw [if_neg hr, List.find?_cons_of_neg _ hr]
      exact ih h

/-- C2: a Trade_Buy of c shares at price pr on an existing position updates the
weighted-average cost to (old_shares·old_avg + c·pr)/(old_shares + c) and the
share count to old_shares + c. -/
theorem trade_buy_weighted_average (row : Investment) (c pr rpl rate : ℚ)
    (hc : 0 < c) (hs : 0 ≤ row.shares) :
    (update_investment_row row c pr rpl rate).avg_price
        = (row.shares * row.avg_price + c * pr) / (row.shares + c) ∧
    (update_investment_row row c pr rpl rate).shares = row.shares + c := by
  have h1 : (0 : ℚ) < row.shares + c := by linarith
  refine ⟨?_, rfl⟩
  simp [update_investment_row, hc, h1]

/-- C2 witness: buying 100 more shares at 11000 on a position of 100 shares at
average 9000 gives average 10000 and 200 shares. -/
theorem trade_buy_weighted_average_witness :
    ((0 : ℚ) < 100 ∧ (0 : ℚ) ≤ posBuyExample.shares) ∧
    (update_investment_row posBuyExample 100 11000 0 1).avg_price = 10000 ∧
    (update_investment_row posBuyExample 100 11000 0 1).shares = 200 := by
  have h := trade_buy_weighted_average posBuyExample 100 11000 0 1 (by norm_num)
    (by norm_num [posBuyExample])
  refine ⟨⟨by norm_num, by norm_num [posBuyExample]⟩, ?_, ?_⟩
  · rw [h.1]
    norm_num [posBuyExample]
  · rw [h.2]
    norm_num [posBuyExample]

/-- C5 counterexample: `update_investment` has no oversell guard — selling 20
shares out of a position holding 10 stores the negative share count -10. -/
theorem negative_shares_counterexample :
    (update_investment_row posTenShares (-20) 100 0 1).shares = -10 ∧
    (update_investment_row posTenShares (-20) 100 0 1).shares < 0 := by
  constructor <;> norm_num [update_investment_row, posTenShares]

/-- C5 amended: every position update stores shares = current shares +
shares_change unconditionally; nothing clamps or rejects a negative result. -/
theorem shares_update_unguarded (row : Investment) (c pr rpl rate : ℚ) :
    (update_investment_row row c pr rpl rate).shares = row.shares + c := rfl

/-- C6: a non-positive shares change (a sell) leaves the stored average buy
price unchanged and only adds to shares and realized P/L. -/
theorem sell_preserves_avg_cost (row : Investment) (c pr rpl rate : ℚ)
    (hc : c ≤ 0) :
    (update_investment_row row c pr rpl rate).avg_price = row.avg_price ∧
    (update_investment_row row c pr rpl rate).shares = row.shares + c ∧
    (update_investment_row row c pr rpl rate).realized_pl = row.realized_pl + rpl := by
  have h1 : ¬ (0 : ℚ) < c := not_lt.mpr hc
  refine ⟨?_, rfl, rfl⟩
  simp [update_investment_row, h1]

/-- C6 witness: selling 40 of 100 shares held at average 400 with realized
gain 2000 keeps the average at 400. -/
theorem sell_preserves_avg_cost_witness :
    ((-40 : ℚ) ≤ 0) ∧
    (update_investment_row posHold100 (-40) 450 2000 1).avg_price = posHold100.avg_price ∧
    (update_investment_row posHold100 (-40) 450 2000 1).shares = posHold100.shares + -40 ∧
    (update_investment_row posHold100 (-40) 450 2000 1).realized_pl
      = posHold100.realized_pl + 2000 := by
  exact ⟨by norm_num, sell_preserves_avg_cost posHold100 (-40) 450 2000 1 (by norm_num)⟩

/-- C7: Trade_Buy reconciliation — shares derived from amount/price when only
the price is present and positive, price derived from amount/shares when only
the shares are present and positive, and the shares=1/price=amount placeholder
when both are missing. -/
theorem trade_buy_derivation (total : ℚ) :
    (∀ p : ℚ, 0 < p →
        derive_buy_shares_price total none (some p) = (some (total / p), some p)) ∧
    (∀ s : ℚ, 0 < s →
        derive_buy_shares_price total (some s) none = (some s, some (total / s))) ∧
    derive_buy_shares_price total none none = (some 1, some total) := by
  refine ⟨?_, ?_, rfl⟩
  · intro p hp
    simp [derive_buy_shares_price, hp]
  · intro s hs
    simp [derive_buy_shares_price, hs]

/-- C7 witness: with amount 500000 — price 400 gives 1250 shares, 100 shares
give price 5000, and both missing gives the shares=1/price=500000
placeholder. -/
theorem trade_buy_derivation_witness :
    ((0 : ℚ) < 400 ∧ derive_buy_shares_price 500000 none (some 400) = (some 1250, some 400)) ∧
    ((0 : ℚ) < 100 ∧ derive_buy_shares_price 500000 (some 100) none = (some 100, some 5000)) ∧
    derive_buy_shares_price 500000 none none = (some 1, some 500000) := by
  refine ⟨⟨by norm_num, ?_⟩, ⟨by norm_num, ?_⟩, (trade_buy_derivation 500000).2.2⟩
  · rw [(trade_buy_derivation 500000).1 400 (by norm_num)]
    norm_num
  · rw [(trade_buy_derivation 500000).2.1 100 (by norm_num)]
    norm_num

/-- C9: when the fetch yields nothing usable (both providers failed), the rate
function returns the cached rate if one exists and the fallback constant
otherwise, and the default fallback constant is 16000; the function is total,
so every failure path returns a value. -/
theorem rate_failure_degrades (st : RateCache) (now fb : ℚ) :
    (get_usd_to_idr_rate st now none fb).1 = st.cached_rate.getD fb ∧
    FALLBACK_RATE = 16000 := by
  refine ⟨?_, rfl⟩
  obtain ⟨cr, ts⟩ := st
  cases cr with
  | none => cases ts <;> rfl
  | some r =>
    cases ts with
    | none => rfl
    | some t =>
      by_cases h : now - t < CACHE_DURATION
      · simp [get_usd_to_idr_rate, h]
      · simp [get_usd_to_idr_rate, h]

/-- C1: a Trade_Sell of s shares (price pr supplied) against an existing
position p appends exactly two ledger entries — an Asset (return of capital)
entry for base_cost = s·avg_price and an Income/Capital Gains entry for
capital_gain = amount − base_cost — and the rewritten position row adds
capital_gain to its realized P/L. -/
theorem trade_sell_capital_gain_split (portfolio : List Investment)
    (td : TransactionData) (usdRate : ℚ) (date : String) (p : Investment) (s pr : ℚ)
    (hfind : findInvestment portfolio td.investment_symbol = some p)
    (hs : td.shares = some s) (hp : td.price_per_share = some pr) :
    process_trade_sell portfolio td usdRate date =
      some (
        [ { date := date, account := td.account, category := td.category,
            subcategory := td.subcategory,
            note := "Sell " ++ fstr td.investment_symbol ++ " (Return of Capital) ("
              ++ "IDR" ++ ")",
            amount := s * p.avg_price, transaction_type := "Asset", status := pyStatus td },
          { date := date, account := td.account, category := "Income",
            subcategory := "Capital Gains",
            note := "Sell " ++ fstr td.investment_symbol ++ " (Gain) (" ++ "IDR" ++ ")",
            amount := td.amount - s * p.avg_price, transaction_type := "Income",
            status := pyStatus td } ],
        update_investment portfolio td.investment_symbol (-s) pr
          (td.amount - s * p.avg_price) "" "" "IDR" 1) ∧
    findInvestment
        (update_investment portfolio td.investment_symbol (-s) pr
          (td.amount - s * p.avg_price) "" "" "IDR" 1) td.investment_symbol
      = some (update_investment_row p (-s) pr (td.amount - s * p.avg_price) 1) ∧
    (update_investment_row p (-s) pr (td.amount - s * p.avg_price) 1).realized_pl
      = p.realized_pl + (td.amount - s * p.avg_price) := by
  refine ⟨?_, find_update_investment portfolio td.investment_symbol _ _ _ _ _ _ _ p hfind, rfl⟩
  have hbeq : (("IDR" : String) == "USD") = false := rfl
  simp only [process_trade_sell, hfind, hs, hp, invGetCurrency, hbeq, Bool.false_eq_true,
    if_false]

/-- C1 witness: the spec example — position with avg_cost 400, sale of 1000
shares at 450 (amount 450000) writes a 400000 Asset entry and a 50000 Capital
Gains entry and books realized P/L 50000 on the position. -/
theorem trade_sell_capital_gain_split_witness :
    (process_trade_sell [posArci] tdSellArci 1 "2025-01-01").map
        (fun r => r.1.map (fun en => (en.amount, en.category, en.subcategory,
          en.transaction_type)))
      = some [(400000, "Investment", "Stocks", "Asset"),
              (50000, "Income", "Capital Gains", "Income")] ∧
    (update_investment_row posArci (-1000) 450 50000 1).realized_pl = 50000 := by
  have h := trade_sell_capital_gain_split [posArci] tdSellArci 1 "2025-01-01" posArci
    1000 450 rfl rfl rfl
  have e2 : tdSellArci.amount - 1000 * posArci.avg_price = 50000 := by
    norm_num [tdSellArci, posArci]
  have e1 : (1000 : ℚ) * posArci.avg_price = 400000 := by norm_num [posArci]
  rw [e2, e1] at h
  refine ⟨?_, ?_⟩
  · rw [h.1]
    rfl
  · rw [h.2.2]
    norm_num [posArci]

/-- C3 (code-bug evidence): selling 5 AAPL at 120 USD against an existing USD
position with USD/IDR rate 16000 writes the two entries unconverted (amounts
500 and 100 instead of 8000000 and 1600000) and labels them (IDR), because the
dict returned by get_investments carries no currency key and
`inv.get('currency', 'IDR')` therefore always yields IDR. -/
theorem trade_sell_usd_rate_ignored :
    (process_trade_sell [posAaplUsd] tdSellAapl 16000 "2025-01-01").map
        (fun r => r.1.map (fun en => (en.amount, en.note)))
      = some [(500, "Sell AAPL (Return of Capital) (IDR)"),
              (100, "Sell AAPL (Gain) (IDR)")] := by
  have hfind : findInvestment [posAaplUsd] tdSellAapl.investment_symbol = some posAaplUsd :=
    rfl
  have hsh : tdSellAapl.shares = some 5 := rfl
  have hpr : tdSellAapl.price_per_share = some 120 := rfl
  have hbeq : (("IDR" : String) == "USD") = false := rfl
  have havg : posAaplUsd.avg_price = 100 := rfl
  have hamt : tdSellAapl.amount = 600 := rfl
  simp only [process_trade_sell, hfind, hsh, hpr, invGetCurrency, hbeq, havg, hamt,
    Bool.false_eq_true, if_false, Option.map_some', List.map_cons, List.map_nil]
  norm_num [fstr]
  exact ⟨rfl, rfl⟩

/-- C4 counterexample: a Transfer with no destination account is not rejected —
both ledger entries are written, the destination side against the literal
account name Unknown. -/
theorem transfer_unknown_destination_counterexample :
    tdTransferNoDest.destination_account = none ∧
    process_transfer tdTransferNoDest "2025-01-01" =
      [ { date := "2025-01-01", account := "BCA", category := "Transfer",
          subcategory := "Internal Transfer", note := "Transfer to Unknown",
          amount := 500000, transaction_type := "Transfer", status := "Normal" },
        { date := "2025-01-01", account := "Unknown", category := "Transfer",
          subcategory := "Internal Transfer", note := "Transfer from BCA",
          amount := 500000, transaction_type := "Transfer", status := "Normal" } ] ∧
    (process_transfer tdTransferNoDest "2025-01-01").length ≠ 0 := by
  refine ⟨rfl, rfl, by simp [process_transfer]⟩

/-- C4 amended: for a Transfer whose destination account is missing, the
engine substitutes the placeholder destination Unknown and appends both
entries (source side noting Transfer to Unknown, destination side on the
account Unknown); the request is not rejected. -/
theorem transfer_unknown_destination_amended (td : TransactionData) (date : String)
    (h : td.destination_account = none) :
    process_transfer td date =
      [ { date := date, account := td.account, category := td.category,
          subcategory := td.subcategory, note := "Transfer to Unknown",
          amount := td.amount, transaction_type := "Transfer", status := pyStatus td },
        { date := date, account := "Unknown", category := td.category,
          subcategory := td.subcategory, note := "Transfer from " ++ td.account,
          amount := td.amount, transaction_type := "Transfer", status := pyStatus td } ] := by
  simp [process_transfer, h]

/-- C4 amended witness: the concrete destination-less transfer produces the
two Unknown-destination entries. -/
theorem transfer_unknown_destination_amended_witness :
    process_transfer tdTransferNoDest "2025-01-01" =
      [ { date := "2025-01-01", account := tdTransferNoDest.account,
          category := tdTransferNoDest.category,
          subcategory := tdTransferNoDest.subcategory, note := "Transfer to Unknown",
          amount := tdTransferNoDest.amount, transaction_type := "Transfer",
          status := pyStatus tdTransferNoDest },
        { date := "2025-01-01", account := "Unknown", category := tdTransferNoDest.category,
          subcategory := tdTransferNoDest.subcategory,
          note := "Transfer from " ++ tdTransferNoDest.account,
          amount := tdTransferNoDest.amount, transaction_type := "Transfer",
          status := pyStatus tdTransferNoDest } ] :=
  transfer_unknown_destination_amended tdTransferNoDest "2025-01-01" rfl

/-- C8: every failure of the parse stage is recovered into the fallback
record — both an extraction/JSON-parse failure (the raw text yields outcome
`Except.error e`) and a field-coercion failure (the text parses to an object
`data` whose coercion raises with message e, e.g. `float(None)` on a null
confidence): in either case the normalizer returns the record with amount 0,
category Miscellaneous, subcategory Other, account Wallet, transaction type
Expense, flagged, confidence 0, and a flag_reason naming the error.  The
stage is a total function, so it yields a record instead of propagating an
exception. -/
theorem parse_failure_fallback (e : String) (data : JsonObj)
    (hcoerce : decodeObj data = Except.error e) :
    processParsedResponse (Except.error e) = fallbackRecord e ∧
    processParsedResponse (Except.ok data) = fallbackRecord e ∧
    (fallbackRecord e).amount = 0 ∧
    (fallbackRecord e).category = "Miscellaneous" ∧
    (fallbackRecord e).subcategory = "Other" ∧
    (fallbackRecord e).account = "Wallet" ∧
    (fallbackRecord e).transaction_type = "Expense" ∧
    (fallbackRecord e).is_flagged = true ∧
    (fallbackRecord e).confidence = 0 ∧
    (fallbackRecord e).flag_reason = some ("AI response parsing error: " ++ e) := by
  refine ⟨rfl, ?_, rfl, rfl, rfl, rfl, rfl, rfl, rfl, rfl⟩
  simp [processParsedResponse, hcoerce]

/-- C8 witness: a parsed object whose confidence field is JSON null makes the
coercion raise (Python `float(None)`), and the normalizer maps it to the
fallback record for that error. -/
theorem parse_failure_fallback_witness :
    decodeObj [("confidence", Json.null)] = Except.error
      "TypeError: float() argument must be a string or a real number, not NoneType" ∧
    processParsedResponse (Except.ok [("confidence", Json.null)]) = fallbackRecord
      "TypeError: float() argument must be a string or a real number, not NoneType" := by
  refine ⟨rfl, ?_⟩
  exact (parse_failure_fallback
    "TypeError: float() argument must be a string or a real number, not NoneType"
    [("confidence", Json.null)] rfl).2.1

/-- C10: feeding the normalizer the JSON serialisation of its own
parse-failure fallback record reproduces that record exactly — the degraded
path is a fixed point of normalize after serialize. -/
theorem fallback_roundtrip_fixed_point (e : String) :
    processParsedResponse (Except.ok (serializeRecord (fallbackRecord e)))
      = fallbackRecord e := by
  rfl
